import Mathlib

/-!
Verification of the ThorCam BLACS worker (`blacs_workers.py`) against its
natural-language specification.  The `Thorlab_Camera` class is shallowly
embedded: the SDK camera handle becomes the `Camera` structure, Python
numbers become `ℚ`, Python `int()` becomes truncation toward zero, methods
become pure functions returning an `Except` (an exception) together with the
camera state as mutated up to the point of return or raise, and the SDK's
frame-poll responses become explicit traces of `PollResult`s.
-/

namespace ThorCam

/-- Kinds of Python exception the embedded methods can raise. -/
inductive PyError where
  | valueError
  | keyError
  | typeError
  | sdkError
deriving DecidableEq, Repr

/-- Python's `int()` applied to a rational: truncation toward zero
(`Int.div` truncates toward zero and the denominator is positive). -/
def pyInt (q : ℚ) : ℤ := Int.tdiv q.num q.den

/-- State of the SDK camera handle: exactly the fields of the
`TLCamera` object that `blacs_workers.py` reads or writes
(`operation_mode`, `gain`, `exposure_time_us`, `black_level`,
`image_width_pixels`, `image_height_pixels`, `is_armed`,
`frames_per_trigger_zero_for_unlimited`), plus the argument of the last
`arm` call and a counter of `issue_software_trigger` calls so that SDK
side effects are visible in the state. -/
structure Camera where
  operation_mode : ℚ
  gain : ℚ
  exposure_time_us : ℚ
  black_level : ℚ
  image_width_pixels : ℚ
  image_height_pixels : ℚ
  is_armed : Bool
  frames_per_trigger_zero_for_unlimited : ℚ
  arm_frames : ℚ
  sw_triggers : Nat
deriving DecidableEq, Repr

/-- A dynamically-typed Python value as passed in `attr_dict`. -/
inductive PyVal where
  | num (q : ℚ)
  | str (s : String)
deriving DecidableEq, Repr

/-- State of a `Thorlab_Camera` object: the SDK handle, the `props`
dictionary, and the `_abort_acquisition` flag. -/
structure TState where
  camera : Camera
  props : List (String × ℚ)
  abort_acquisition_flag : Bool
deriving DecidableEq, Repr

/-- Lookup in a string-keyed Python dict (association list). -/
def dictGet : List (String × ℚ) → String → Option ℚ
  | [], _ => none
  | (k', v) :: rest, k => if k' = k then some v else dictGet rest k

/-- Python dict assignment `d[k] = v`: replace in place, else append. -/
def dictSet : List (String × ℚ) → String → ℚ → List (String × ℚ)
  | [], k, v => [(k, v)]
  | (k', v') :: rest, k, v =>
      if k' = k then (k, v) :: rest else (k', v') :: dictSet rest k v

/-- The module-level dict
`operation_mode_dict = {'SOFTWARE_TRIGGERED':0,'HARDWARE_TRIGGERED':1,'BULB':2}`. -/
def operation_mode_dict : List (String × ℚ) :=
  [("SOFTWARE_TRIGGERED", 0), ("HARDWARE_TRIGGERED", 1), ("BULB", 2)]

/-- `set_operation_mode`: `self.camera.operation_mode =
operation_mode_dict[operationMode]`.  A missing key raises `KeyError`
before any write happens. -/
def set_operation_mode (operationMode : String) (c : Camera) :
    Except PyError Unit × Camera :=
  match dictGet operation_mode_dict operationMode with
  | some m => (Except.ok (), {c with operation_mode := m})
  | none => (Except.error PyError.keyError, c)

/-- `set_gain`: raise `ValueError` when `gain > 48 or gain < 0`, else
write `self.camera.gain = gain`. -/
def set_gain (gain : ℚ) (c : Camera) : Except PyError Unit × Camera :=
  if gain > 48 ∨ gain < 0 then (Except.error PyError.valueError, c)
  else (Except.ok (), {c with gain := gain})

/-- `set_exposure`: unconditional write of `exposure_time_us`. -/
def set_exposure (exposureTime : ℚ) (c : Camera) :
    Except PyError Unit × Camera :=
  (Except.ok (), {c with exposure_time_us := exposureTime})

/-- `set_blackLevel`: `blackLevel = int(blackLevel)`, raise `ValueError`
when the integer is `> 511 or < 0`, else write `self.camera.black_level`. -/
def set_blackLevel (blackLevel : ℚ) (c : Camera) :
    Except PyError Unit × Camera :=
  let bl : ℤ := pyInt blackLevel
  if bl > 511 ∨ bl < 0 then (Except.error PyError.valueError, c)
  else (Except.ok (), {c with black_level := (bl : ℚ)})

/-- `if self.camera.is_armed: self.camera.disarm()` (used by
`set_attributes` and `snap`). -/
def disarmIfArmed (c : Camera) : Camera :=
  if c.is_armed then {c with is_armed := false} else c

/-- One iteration of the `set_attributes` loop body: dispatch on the
key name; an unrecognized key falls through the `if/elif` chain and does
nothing.  A value of the wrong Python type makes the dispatched setter
raise (`KeyError` for a non-string dict index, `TypeError` for a
non-number compared against a number). -/
def applyAttr (prop : String) (v : PyVal) (c : Camera) :
    Except PyError Unit × Camera :=
  if prop = "OperationMode" then
    match v with
    | PyVal.str s => set_operation_mode s c
    | PyVal.num _ => (Except.error PyError.keyError, c)
  else if prop = "Gain" then
    match v with
    | PyVal.num q => set_gain q c
    | PyVal.str _ => (Except.error PyError.typeError, c)
  else if prop = "ExposureTime" then
    match v with
    | PyVal.num q => set_exposure q c
    | PyVal.str _ => (Except.error PyError.typeError, c)
  else if prop = "BLackLevel" then
    match v with
    | PyVal.num q => set_blackLevel q c
    | PyVal.str _ => (Except.error PyError.typeError, c)
  else (Except.ok (), c)

/-- The `for prop, vals in attr_dict.items()` loop of `set_attributes`:
an exception raised by a setter propagates, keeping earlier writes. -/
def setAttrsLoop : List (String × PyVal) → Camera →
    Except PyError Unit × Camera
  | [], c => (Except.ok (), c)
  | (k, v) :: rest, c =>
      match applyAttr k v c with
      | (Except.ok _, c') => setAttrsLoop rest c'
      | (Except.error e, c') => (Except.error e, c')

/-- `set_attributes`: disarm if armed, then run the dispatch loop. -/
def set_attributes (attr_dict : List (String × PyVal)) (c : Camera) :
    Except PyError Unit × Camera :=
  setAttrsLoop attr_dict (disarmIfArmed c)

/-- `get_attributes`: write the six keys into `self.props` from the
camera handle, in source order, and return `self.props`.  Note the
source spells the black-level key `'BLackLevel'`. -/
def get_attributes (s : TState) : List (String × ℚ) × TState :=
  let p0 := dictSet s.props "OperationMode" s.camera.operation_mode
  let p1 := dictSet p0 "Gain" s.camera.gain
  let p2 := dictSet p1 "ExposureTime" s.camera.exposure_time_us
  let p3 := dictSet p2 "BLackLevel" s.camera.black_level
  let p4 := dictSet p3 "Width" s.camera.image_width_pixels
  let p5 := dictSet p4 "Height" s.camera.image_height_pixels
  (p5, {s with props := p5})

/-- A concrete camera state used to instantiate theorems. -/
def cam0 : Camera :=
  { operation_mode := 1
    gain := 5
    exposure_time_us := 100
    black_level := 7
    image_width_pixels := 1280
    image_height_pixels := 1024
    is_armed := false
    frames_per_trigger_zero_for_unlimited := 0
    arm_frames := 0
    sw_triggers := 0 }

/-- Modelled SDK call sequence of `__init__` around camera discovery:
`discover_available_cameras()` yields `available_cameras`; when fewer
than one camera is found a `ValueError` is raised before
`open_camera(str(serial_number))` runs.  The boolean records whether
`open_camera` was called. -/
def thorlab_init (available_cameras : List String) (serial_number : ℤ) :
    Except PyError String × Bool :=
  if available_cameras.length < 1 then (Except.error PyError.valueError, false)
  else (Except.ok (toString serial_number), true)

/-- Outcome of one SDK interaction inside `grab`'s poll loop:
`get_pending_frame_or_null` returns a frame (with its `image_buffer`
abstracted as a `Nat`), returns `None`, or raises. -/
inductive PollResult where
  | frame (img : Nat)
  | null
  | err
deriving DecidableEq, Repr

/-- The `while not img: img = self.camera.get_pending_frame_or_null()`
loop of `grab`, run against a trace of SDK responses: the loop exits
with the first frame, propagates the first SDK exception, and
`none` means the trace was exhausted with the loop still spinning
(the loop itself has no timeout, iteration limit, or other exit). -/
def pollLoop : List PollResult → Option (Except PyError Nat)
  | [] => none
  | PollResult.frame img :: _ => some (Except.ok img)
  | PollResult.err :: _ => some (Except.error PyError.sdkError)
  | PollResult.null :: ps => pollLoop ps

/-- The buffer of the first non-null frame in a trace of SDK responses. -/
def firstFrame (polls : List PollResult) : Option Nat :=
  (polls.filterMap fun p =>
    match p with
    | PollResult.frame img => some img
    | _ => none).head?

/-- `grab`: issue a software trigger, then poll until a frame exists
and return its `image_buffer`.  `none` models the poll loop never
exiting within the given SDK trace; an SDK exception propagates. -/
def grab (polls : List PollResult) (c : Camera) :
    Option (Except PyError Nat × Camera) :=
  let c' := {c with sw_triggers := c.sw_triggers + 1}
  match pollLoop polls with
  | none => none
  | some r => some (r, c')

/-- `configure_acquisition`: set `frames_per_trigger_zero_for_unlimited`
to 0 (continuous) or 1, force `SOFTWARE_TRIGGERED` mode, and `arm(2)`.
The `bufferCount` argument is never read. -/
def configure_acquisition (continuous : Bool) (bufferCount : ℚ)
    (c : Camera) : Camera :=
  let c1 :=
    if continuous then {c with frames_per_trigger_zero_for_unlimited := 0}
    else {c with frames_per_trigger_zero_for_unlimited := 1}
  let c2 := (set_operation_mode "SOFTWARE_TRIGGERED" c1).2
  {c2 with is_armed := true, arm_frames := 2}

/-- `stop_acquisition`: `self.camera.disarm()`. -/
def stop_acquisition (c : Camera) : Camera := {c with is_armed := false}

/-- `snap`: disarm if armed, `configure_acquisition(continuous=False,
bufferCount=1)`, `grab`, `stop_acquisition`, return the image.  An
exception from `grab` propagates (skipping `stop_acquisition`); `none`
models `grab` never returning. -/
def snap (polls : List PollResult) (c : Camera) :
    Option (Except PyError Nat × Camera) :=
  let c1 := disarmIfArmed c
  let c2 := configure_acquisition false 1 c1
  match grab polls c2 with
  | none => none
  | some (Except.ok img, c3) => some (Except.ok img, stop_acquisition c3)
  | some (Except.error e, c3) => some (Except.error e, c3)

/-- Result of a terminating `grab_multiple` call: the final contents of
the caller's `images` list, the `_abort_acquisition` flag on return, and
whether the abort branch was taken. -/
structure GMResult where
  images : List Nat
  abortFlag : Bool
  aborted : Bool
deriving DecidableEq, Repr

/-- `grab_multiple`: `for i in range(n_images): while True: ...`.
Each inner-loop iteration consumes one element of `events`: the
environment may set `_abort_acquisition` (`setAbort`, modelling an
external `abort_acquisition()` call since the flag was last read), then
the flag is checked — if set it is cleared and the method returns —
otherwise `self.grab()` runs against that iteration's SDK trace; a
successful grab is appended and the inner loop breaks, an exception is
swallowed (`except: continue`) and the same image index is retried.
`none` models non-termination (trace exhausted, or `grab` hanging). -/
def grab_multiple (remaining : Nat) (events : List (Bool × List PollResult))
    (flag : Bool) (images : List Nat) (c : Camera) :
    Option (GMResult × Camera) :=
  match remaining with
  | 0 => some (⟨images, flag, false⟩, c)
  | r + 1 =>
    match events with
    | [] => none
    | (setAbort, polls) :: es =>
      if flag || setAbort then some (⟨images, false, true⟩, c)
      else
        match grab polls c with
        | none => none
        | some (Except.ok img, c') =>
            grab_multiple r es false (images ++ [img]) c'
        | some (Except.error _, c') =>
            grab_multiple (r + 1) es false images c'

/-- `grab` as a method on the full object state: its body touches only
`self.camera`; `self.props` and `self._abort_acquisition` pass through. -/
def grabS (polls : List PollResult) (s : TState) :
    Option (Except PyError Nat × TState) :=
  match grab polls s.camera with
  | none => none
  | some (r, c') => some (r, {s with camera := c'})

/-- `snap` as a method on the full object state: its body touches only
`self.camera`; `self.props` and `self._abort_acquisition` pass through. -/
def snapS (polls : List PollResult) (s : TState) :
    Option (Except PyError Nat × TState) :=
  match snap polls s.camera with
  | none => none
  | some (r, c') => some (r, {s with camera := c'})

/-- The state of `cam0` after a successful `snap`: software-triggered,
single frame per trigger, armed with 2 then disarmed, one software
trigger issued. -/
def cam0snap : Camera := {cam0 with
  operation_mode := 0
  frames_per_trigger_zero_for_unlimited := 1
  arm_frames := 2
  sw_triggers := 1
  is_armed := false}

/-- C1: `set_gain(g)` raises a `ValueError` iff `g` is outside `[0,48]`
and otherwise writes the gain; `set_blackLevel(b)` raises a `ValueError`
iff `int(b)` is outside `[0,511]` and otherwise writes that integer as
the black level; a raising call leaves the camera unchanged. -/
theorem gain_blackLevel_range_guards (g b : ℚ) (c : Camera) :
    ((set_gain g c).1 = Except.error PyError.valueError ↔ (g < 0 ∨ 48 < g))
    ∧ ((0 ≤ g ∧ g ≤ 48) → set_gain g c = (Except.ok (), {c with gain := g}))
    ∧ ((g < 0 ∨ 48 < g) → (set_gain g c).2 = c)
    ∧ ((set_blackLevel b c).1 = Except.error PyError.valueError ↔
        (pyInt b < 0 ∨ 511 < pyInt b))
    ∧ ((0 ≤ pyInt b ∧ pyInt b ≤ 511) →
        set_blackLevel b c = (Except.ok (), {c with black_level := (pyInt b : ℚ)}))
    ∧ ((pyInt b < 0 ∨ 511 < pyInt b) → (set_blackLevel b c).2 = c) := by
  refine ⟨?_, ?_, ?_, ?_, ?_, ?_⟩
  · by_cases h : (48 : ℚ) < g ∨ g < 0
    · simp only [set_gain, gt_iff_lt, if_pos h]
      exact ⟨fun _ => h.symm, fun _ => trivial⟩
    · simp only [set_gain, gt_iff_lt, if_neg h]
      constructor
      · intro hcontra; exact absurd hcontra (by simp)
      · intro hout; exact absurd hout.symm h
  · rintro ⟨h0, h48⟩
    have h : ¬((48 : ℚ) < g ∨ g < 0) := by
      rintro (h1 | h1) <;> linarith
    simp only [set_gain, gt_iff_lt, if_neg h]
  · intro hout
    have h : (48 : ℚ) < g ∨ g < 0 := hout.symm
    simp only [set_gain, gt_iff_lt, if_pos h]
  · by_cases h : (511 : ℤ) < pyInt b ∨ pyInt b < 0
    · simp only [set_blackLevel, gt_iff_lt, if_pos h]
      exact ⟨fun _ => h.symm, fun _ => trivial⟩
    · simp only [set_blackLevel, gt_iff_lt, if_neg h]
      constructor
      · intro hcontra; exact absurd hcontra (by simp)
      · intro hout; exact absurd hout.symm h
  · rintro ⟨h0, h511⟩
    have h : ¬((511 : ℤ) < pyInt b ∨ pyInt b < 0) := by
      rintro (h1 | h1) <;> omega
    simp only [set_blackLevel, gt_iff_lt, if_neg h]
  · intro hout
    have h : (511 : ℤ) < pyInt b ∨ pyInt b < 0 := hout.symm
    simp only [set_blackLevel, gt_iff_lt, if_pos h]

/-- C1 witness: concrete in-range and out-of-range calls. -/
theorem gain_blackLevel_range_guards_witness :
    set_gain 10 cam0 = (Except.ok (), {cam0 with gain := 10})
    ∧ (set_gain 49 cam0).2 = cam0
    ∧ set_blackLevel 500 cam0 =
        (Except.ok (), {cam0 with black_level := ((pyInt 500 : ℤ) : ℚ)})
    ∧ (set_blackLevel 512 cam0).2 = cam0 :=
  ⟨(gain_blackLevel_range_guards 10 500 cam0).2.1 (by norm_num),
   (gain_blackLevel_range_guards 49 500 cam0).2.2.1 (Or.inr (by norm_num)),
   (gain_blackLevel_range_guards 10 500 cam0).2.2.2.2.1 (by decide),
   (gain_blackLevel_range_guards 10 512 cam0).2.2.2.2.2 (Or.inr (by decide))⟩

/-- C6: `set_operation_mode` maps exactly the three enumerated names to
0, 1, 2 and raises (a `KeyError`) on any other string with the camera
unchanged. -/
theorem operation_mode_mapping (c : Camera) :
    set_operation_mode "SOFTWARE_TRIGGERED" c =
      (Except.ok (), {c with operation_mode := 0})
    ∧ set_operation_mode "HARDWARE_TRIGGERED" c =
      (Except.ok (), {c with operation_mode := 1})
    ∧ set_operation_mode "BULB" c =
      (Except.ok (), {c with operation_mode := 2})
    ∧ (∀ s : String, s ≠ "SOFTWARE_TRIGGERED" → s ≠ "HARDWARE_TRIGGERED" →
        s ≠ "BULB" →
        set_operation_mode s c = (Except.error PyError.keyError, c)) := by
  refine ⟨rfl, rfl, rfl, ?_⟩
  intro s h1 h2 h3
  simp [set_operation_mode, operation_mode_dict, dictGet,
    Ne.symm h1, Ne.symm h2, Ne.symm h3]

/-- C6 witness: the three valid names and one invalid name. -/
theorem operation_mode_mapping_witness :
    set_operation_mode "SOFTWARE_TRIGGERED" cam0 =
      (Except.ok (), {cam0 with operation_mode := 0})
    ∧ set_operation_mode "TRIGGER" cam0 =
      (Except.error PyError.keyError, cam0) :=
  ⟨(operation_mode_mapping cam0).1,
   (operation_mode_mapping cam0).2.2.2 "TRIGGER"
     (by decide) (by decide) (by decide)⟩

/-- C7: when discovery returns no cameras, `__init__` raises a
`ValueError` and no camera handle is opened, for every serial number. -/
theorem init_no_cameras_raises (serial_number : ℤ) :
    thorlab_init [] serial_number = (Except.error PyError.valueError, false) :=
  rfl

/-- Writing a key then reading it back yields the written value. -/
theorem dictGet_dictSet_self (d : List (String × ℚ)) (k : String) (v : ℚ) :
    dictGet (dictSet d k v) k = some v := by
  induction d with
  | nil => simp [dictGet, dictSet]
  | cons hd tl ih =>
    obtain ⟨k', v'⟩ := hd
    by_cases h : k' = k
    · simp [dictGet, dictSet, h]
    · simp [dictGet, dictSet, h, ih]

/-- Writing one key leaves reads of a different key unchanged. -/
theorem dictGet_dictSet_ne (d : List (String × ℚ)) (k' : String) (v : ℚ)
    (k : String) (h : k' ≠ k) : dictGet (dictSet d k' v) k = dictGet d k := by
  induction d with
  | nil => simp [dictGet, dictSet, h]
  | cons hd tl ih =>
    obtain ⟨k'', v''⟩ := hd
    by_cases h2 : k'' = k'
    · simp [dictGet, dictSet, h2, h, Ne.symm h]
    · by_cases h3 : k'' = k <;>
        simp [dictGet, dictSet, h2, h3, ih, Ne.symm h]

/-- C9: `set_attributes` first disarms the camera when it is armed, and
its loop body writes the camera only for the four recognized keys; any
other key (`'Width'`, `'Height'`, …) falls through the `if/elif` chain:
no error is raised and the camera is left untouched. -/
theorem set_attributes_dispatch (attr_dict : List (String × PyVal))
    (c : Camera) :
    set_attributes attr_dict c
      = setAttrsLoop attr_dict (if c.is_armed then {c with is_armed := false} else c)
    ∧ (∀ (k : String) (v : PyVal) (c0 : Camera),
        k ≠ "OperationMode" → k ≠ "Gain" → k ≠ "ExposureTime" →
        k ≠ "BLackLevel" → applyAttr k v c0 = (Except.ok (), c0)) := by
  refine ⟨rfl, ?_⟩
  intro k v c0 h1 h2 h3 h4
  simp [applyAttr, h1, h2, h3, h4]

/-- C9 witness: the read-only keys `'Width'` and `'Height'` are ignored. -/
theorem set_attributes_dispatch_witness :
    applyAttr "Width" (PyVal.num 3) cam0 = (Except.ok (), cam0)
    ∧ applyAttr "Height" (PyVal.num 4) cam0 = (Except.ok (), cam0) :=
  ⟨(set_attributes_dispatch [] cam0).2 "Width" (PyVal.num 3) cam0
     (by decide) (by decide) (by decide) (by decide),
   (set_attributes_dispatch [] cam0).2 "Height" (PyVal.num 4) cam0
     (by decide) (by decide) (by decide) (by decide)⟩

/-- C5 counterexample: on a fresh state the dict returned by
`get_attributes` has no entry under the key `'BlackLevel'` — the code
stores the freshly-read black level under the misspelled key
`'BLackLevel'` — so the claimed `BlackLevel` entry does not exist. -/
theorem get_attributes_blackLevel_key_counterexample :
    dictGet (get_attributes ⟨cam0, [], false⟩).1 "BlackLevel" = none
    ∧ dictGet (get_attributes ⟨cam0, [], false⟩).1 "BLackLevel" = some 7
    ∧ (⟨cam0, [], false⟩ : TState).camera.black_level = 7 := by
  decide

/-- C5 (amended): every call to `get_attributes` re-reads the camera
handle: in the returned dict the entries `OperationMode`, `Gain`,
`ExposureTime`, `BLackLevel` (the source's spelling of the black-level
key), `Width` and `Height` equal the camera's current values no matter
what `props` cached; and every recognized write in `set_attributes` is
forwarded to the SDK handle immediately. -/
theorem get_set_attributes_fresh_and_forwarded (s : TState) :
    dictGet (get_attributes s).1 "OperationMode" = some s.camera.operation_mode
    ∧ dictGet (get_attributes s).1 "Gain" = some s.camera.gain
    ∧ dictGet (get_attributes s).1 "ExposureTime" = some s.camera.exposure_time_us
    ∧ dictGet (get_attributes s).1 "BLackLevel" = some s.camera.black_level
    ∧ dictGet (get_attributes s).1 "Width" = some s.camera.image_width_pixels
    ∧ dictGet (get_attributes s).1 "Height" = some s.camera.image_height_pixels
    ∧ (∀ (g : ℚ) (c : Camera), 0 ≤ g → g ≤ 48 →
        (set_attributes [("Gain", PyVal.num g)] c).2.gain = g)
    ∧ (∀ (e : ℚ) (c : Camera),
        (set_attributes [("ExposureTime", PyVal.num e)] c).2.exposure_time_us = e)
    ∧ (∀ (b : ℚ) (c : Camera), 0 ≤ pyInt b → pyInt b ≤ 511 →
        (set_attributes [("BLackLevel", PyVal.num b)] c).2.black_level
          = (pyInt b : ℚ))
    ∧ (∀ (m : String) (mv : ℚ) (c : Camera),
        dictGet operation_mode_dict m = some mv →
        (set_attributes [("OperationMode", PyVal.str m)] c).2.operation_mode
          = mv) := by
  refine ⟨?_, ?_, ?_, ?_, ?_, ?_, ?_, ?_, ?_, ?_⟩
  · simp [get_attributes, dictGet_dictSet_self, dictGet_dictSet_ne]
  · simp [get_attributes, dictGet_dictSet_self, dictGet_dictSet_ne]
  · simp [get_attributes, dictGet_dictSet_self, dictGet_dictSet_ne]
  · simp [get_attributes, dictGet_dictSet_self, dictGet_dictSet_ne]
  · simp [get_attributes, dictGet_dictSet_self, dictGet_dictSet_ne]
  · simp [get_attributes, dictGet_dictSet_self]
  · intro g c h0 h48
    have h : ¬((48 : ℚ) < g ∨ g < 0) := by rintro (h1 | h1) <;> linarith
    simp [set_attributes, setAttrsLoop, applyAttr, set_gain, h]
  · intro e c
    simp [set_attributes, setAttrsLoop, applyAttr, set_exposure]
  · intro b c h0 h511
    have h : ¬((511 : ℤ) < pyInt b ∨ pyInt b < 0) := by
      rintro (h1 | h1) <;> omega
    simp [set_attributes, setAttrsLoop, applyAttr, set_blackLevel, h]
  · intro m mv c hm
    simp [set_attributes, setAttrsLoop, applyAttr, set_operation_mode, hm]

/-- C5 (amended) witness: concrete fresh reads and forwarded writes. -/
theorem get_set_attributes_fresh_and_forwarded_witness :
    (set_attributes [("Gain", PyVal.num 5)] cam0).2.gain = 5
    ∧ (set_attributes [("BLackLevel", PyVal.num 20)] cam0).2.black_level
        = ((pyInt 20 : ℤ) : ℚ)
    ∧ (set_attributes [("OperationMode", PyVal.str "BULB")] cam0).2.operation_mode
        = 2 :=
  ⟨(get_set_attributes_fresh_and_forwarded ⟨cam0, [], false⟩).2.2.2.2.2.2.1
     5 cam0 (by norm_num) (by norm_num),
   (get_set_attributes_fresh_and_forwarded ⟨cam0, [], false⟩).2.2.2.2.2.2.2.2.1
     20 cam0 (by decide) (by decide),
   (get_set_attributes_fresh_and_forwarded ⟨cam0, [], false⟩).2.2.2.2.2.2.2.2.2
     "BULB" 2 cam0 (by decide)⟩

/-- With no SDK exception in the trace, the poll loop yields exactly the
first frame of the trace. -/
theorem pollLoop_no_err (polls : List PollResult)
    (h : ∀ p ∈ polls, p ≠ PollResult.err) :
    pollLoop polls = (firstFrame polls).map Except.ok := by
  induction polls with
  | nil => rfl
  | cons p ps ih =>
    cases p with
    | frame i => simp [pollLoop, firstFrame]
    | null =>
      have := ih (fun q hq => h q (List.mem_cons_of_mem _ hq))
      simpa [pollLoop, firstFrame] using this
    | err => exact absurd rfl (h _ (List.mem_cons_self _ _))

/-- A trace holds a frame exactly when `firstFrame` finds one. -/
theorem firstFrame_isSome_iff (polls : List PollResult) :
    (firstFrame polls).isSome ↔ ∃ img, PollResult.frame img ∈ polls := by
  induction polls with
  | nil => simp [firstFrame]
  | cons p ps ih =>
    cases p with
    | frame i => simp [firstFrame]
    | null => simpa [firstFrame] using ih
    | err => simpa [firstFrame] using ih

/-- `grab` rewritten through the poll loop. -/
theorem grab_eq_map (polls : List PollResult) (c : Camera) :
    grab polls c = (pollLoop polls).map
      (fun r => (r, {c with sw_triggers := c.sw_triggers + 1})) := by
  cases hp : pollLoop polls <;> simp [grab, hp]

/-- A trace of nothing but nulls never lets the poll loop exit. -/
theorem pollLoop_all_null (polls : List PollResult)
    (h : ∀ p ∈ polls, p = PollResult.null) : pollLoop polls = none := by
  induction polls with
  | nil => rfl
  | cons p ps ih =>
    have hp := h p (List.mem_cons_self _ _)
    subst hp
    exact ih (fun q hq => h q (List.mem_cons_of_mem _ hq))

/-- `grabS` in terms of `grab`: only the camera component is touched. -/
theorem grabS_eq (polls : List PollResult) (s : TState) :
    grabS polls s = (grab polls s.camera).map
      (fun rc => (rc.1, {s with camera := rc.2})) := by
  cases hg : grab polls s.camera with
  | none => simp [grabS, hg]
  | some rc => obtain ⟨rr, cc⟩ := rc; simp [grabS, hg]

/-- `snapS` in terms of `snap`: only the camera component is touched. -/
theorem snapS_eq (polls : List PollResult) (s : TState) :
    snapS polls s = (snap polls s.camera).map
      (fun rc => (rc.1, {s with camera := rc.2})) := by
  cases hg : snap polls s.camera with
  | none => simp [snapS, hg]
  | some rc => obtain ⟨rr, cc⟩ := rc; simp [snapS, hg]

/-- C4: `grab`'s frame-poll loop has no bounded wait: against any
exception-free trace of SDK responses, `grab` returns iff the trace
eventually holds a non-null frame (so a trace of nulls of any length
gives no exit — there is no iteration limit or timeout), and when it
returns it returns the image buffer of the first non-null frame, the
software trigger having been issued. -/
theorem grab_poll_unbounded (polls : List PollResult) (c : Camera)
    (h : ∀ p ∈ polls, p ≠ PollResult.err) :
    ((grab polls c).isSome ↔ ∃ img, PollResult.frame img ∈ polls)
    ∧ grab polls c = (firstFrame polls).map
        (fun img =>
          (Except.ok img, {c with sw_triggers := c.sw_triggers + 1})) := by
  have h2 : grab polls c = (firstFrame polls).map
      (fun img =>
        (Except.ok img, {c with sw_triggers := c.sw_triggers + 1})) := by
    rw [grab_eq_map, pollLoop_no_err polls h]
    cases firstFrame polls <;> simp
  refine ⟨?_, h2⟩
  rw [h2]
  cases hf : firstFrame polls with
  | none =>
    have := (firstFrame_isSome_iff polls).symm
    rw [hf] at this
    simpa using this
  | some i =>
    have := (firstFrame_isSome_iff polls).symm
    rw [hf] at this
    simpa using this

/-- C4 witness: a null then a frame; the buffer of the first frame. -/
theorem grab_poll_unbounded_witness :
    ((grab [PollResult.null, PollResult.frame 7] cam0).isSome ↔
      ∃ img, PollResult.frame img ∈ [PollResult.null, PollResult.frame 7])
    ∧ grab [PollResult.null, PollResult.frame 7] cam0
        = (firstFrame [PollResult.null, PollResult.frame 7]).map
            (fun img =>
              (Except.ok img, {cam0 with sw_triggers := cam0.sw_triggers + 1})) :=
  grab_poll_unbounded [PollResult.null, PollResult.frame 7] cam0 (by decide)

/-- C8: `configure_acquisition` sets `frames_per_trigger` to 0
(continuous) or 1, unconditionally forces `SOFTWARE_TRIGGERED` (0),
arms with the constant 2, and ignores `bufferCount` entirely; hence
`snap` always leaves the camera software-triggered, whatever mode was
configured before. -/
theorem configure_acquisition_spec (continuous : Bool) (bufferCount : ℚ)
    (c : Camera) :
    (configure_acquisition continuous bufferCount c).frames_per_trigger_zero_for_unlimited
      = (if continuous then 0 else 1)
    ∧ (configure_acquisition continuous bufferCount c).operation_mode = 0
    ∧ (configure_acquisition continuous bufferCount c).is_armed = true
    ∧ (configure_acquisition continuous bufferCount c).arm_frames = 2
    ∧ (∀ b' : ℚ, configure_acquisition continuous bufferCount c
        = configure_acquisition continuous b' c)
    ∧ (∀ (polls : List PollResult) (img : Nat) (c' : Camera),
        snap polls c = some (Except.ok img, c') → c'.operation_mode = 0) := by
  refine ⟨?_, ?_, ?_, ?_, fun b' => rfl, ?_⟩
  · cases continuous <;> rfl
  · cases continuous <;> rfl
  · cases continuous <;> rfl
  · cases continuous <;> rfl
  · intro polls img c' h
    cases hp : pollLoop polls with
    | none => simp [snap, grab, hp] at h
    | some r =>
      cases r with
      | ok i =>
        simp only [snap, grab, hp] at h
        simp only [Option.some.injEq, Prod.mk.injEq] at h
        obtain ⟨h1, h2⟩ := h
        rw [← h2]
        cases continuous <;> rfl
      | error e => simp [snap, grab, hp] at h

/-- C8 witness: a hardware-triggered camera is software-triggered after
a successful `snap`. -/
theorem configure_acquisition_spec_witness :
    cam0snap.operation_mode = 0 :=
  (configure_acquisition_spec false 1 cam0).2.2.2.2.2 [PollResult.frame 5] 5
    cam0snap rfl

/-- C2: whenever `_abort_acquisition` is set at the start of an
acquisition attempt, `grab_multiple` clears the flag and returns at
once, with the `images` list exactly as accumulated so far. -/
theorem grab_multiple_abort_short_circuit (r : Nat) (setAbort : Bool)
    (polls : List PollResult) (es : List (Bool × List PollResult))
    (flag : Bool) (images : List Nat) (c : Camera)
    (h : (flag || setAbort) = true) :
    grab_multiple (r + 1) ((setAbort, polls) :: es) flag images c
      = some (⟨images, false, true⟩, c) := by
  simp [grab_multiple, h]

/-- C2 witness: an abort raised before the attempt keeps the one image
already accumulated and clears the flag. -/
theorem grab_multiple_abort_short_circuit_witness :
    grab_multiple 3 [(true, [PollResult.null])] false [5] cam0
      = some (⟨[5], false, true⟩, cam0) :=
  grab_multiple_abort_short_circuit 2 true [PollResult.null] [] false [5]
    cam0 (by decide)

/-- C3: `grab_multiple` never raises — its result type has no error
outcome because the bare `except:` swallows every grab failure — and
(first conjunct) any terminating run only ever appends to the caller's
list, appending exactly `n_images` images when not aborted; (second
conjunct) a failing grab attempt is retried with the same remaining
count, so there is no retry cap. -/
theorem grab_multiple_swallows_and_counts :
    (∀ (events : List (Bool × List PollResult)) (n : Nat)
        (images : List Nat) (flag : Bool) (c : Camera) (res : GMResult)
        (c' : Camera),
        grab_multiple n events flag images c = some (res, c') →
        ∃ new : List Nat, res.images = images ++ new
          ∧ (res.aborted = false → new.length = n))
    ∧ (∀ (n : Nat) (polls : List PollResult)
        (es : List (Bool × List PollResult)) (images : List Nat)
        (c : Camera) (e : PyError),
        pollLoop polls = some (Except.error e) →
        grab_multiple (n + 1) ((false, polls) :: es) false images c
          = grab_multiple (n + 1) es false images
              {c with sw_triggers := c.sw_triggers + 1}) := by
  constructor
  · intro events
    induction events with
    | nil =>
      intro n images flag c res c' h
      cases n with
      | zero =>
        simp only [grab_multiple] at h
        injection h with h1
        injection h1 with ha hb
        refine ⟨[], ?_, fun _ => ?_⟩
        · rw [← ha]; simp
        · rfl
      | succ m => simp [grab_multiple] at h
    | cons ev es ih =>
      obtain ⟨setAbort, polls⟩ := ev
      intro n images flag c res c' h
      cases n with
      | zero =>
        simp only [grab_multiple] at h
        injection h with h1
        injection h1 with ha hb
        refine ⟨[], ?_, fun _ => ?_⟩
        · rw [← ha]; simp
        · rfl
      | succ m =>
        cases hor : (flag || setAbort) with
        | true =>
          simp only [grab_multiple, hor, if_true] at h
          injection h with h1
          injection h1 with ha hb
          refine ⟨[], ?_, fun hab => ?_⟩
          · rw [← ha]; simp
          · rw [← ha] at hab
            simp at hab
        | false =>
          simp only [grab_multiple, hor, Bool.false_eq_true, if_false] at h
          cases hg : grab polls c with
          | none => rw [hg] at h; simp at h
          | some rc =>
            obtain ⟨rr, c''⟩ := rc
            cases rr with
            | ok img =>
              rw [hg] at h
              obtain ⟨new, hnew, hlen⟩ := ih m (images ++ [img]) false c'' res c' h
              refine ⟨img :: new, ?_, fun hab => ?_⟩
              · rw [hnew, List.append_assoc]; rfl
              · simp [hlen hab]
            | error e =>
              rw [hg] at h
              exact ih (m + 1) images false c'' res c' h
  · intro n polls es images c e h
    have hg : grab polls c
        = some (Except.error e, {c with sw_triggers := c.sw_triggers + 1}) := by
      simp [grab, h]
    simp [grab_multiple, hg]

/-- C3 witness: two images requested; the middle attempt raises, is
swallowed and retried, and exactly two images are appended; a raising
attempt leaves the remaining count unchanged. -/
theorem grab_multiple_swallows_and_counts_witness :
    (∃ new : List Nat, ([7, 9] : List Nat) = [] ++ new
      ∧ (false = false → new.length = 2))
    ∧ grab_multiple 1 [(false, [PollResult.err]),
          (false, [PollResult.frame 3])] false [] cam0
        = grab_multiple 1 [(false, [PollResult.frame 3])] false []
            {cam0 with sw_triggers := cam0.sw_triggers + 1} :=
  ⟨grab_multiple_swallows_and_counts.1
      [(false, [PollResult.null, PollResult.frame 7]),
       (false, [PollResult.err]), (false, [PollResult.frame 9])]
      2 [] false cam0 ⟨[7, 9], false, false⟩
      {cam0 with sw_triggers := 3} (by decide),
   grab_multiple_swallows_and_counts.2 0 [PollResult.err]
      [(false, [PollResult.frame 3])] [] cam0 PyError.sdkError rfl⟩

/-- C10: the `_abort_acquisition` flag is never consulted inside
`grab`'s pending-frame poll loop nor by `snap`: whether `grab` returns
does not depend on the flag, the flag passes through both methods
unchanged, a flag set while `grab` waits on an all-null trace does not
interrupt the wait, both methods act on the camera exactly as their
flag-free bodies do, and in `grab_multiple` an attempt whose poll loop
never exits hangs the call — the abort can only be observed between
attempts. -/
theorem abort_flag_not_polled_in_grab (polls : List PollResult)
    (c : Camera) (ps ps' : List (String × ℚ)) (f f' : Bool) :
    ((grabS polls ⟨c, ps, f⟩).isSome ↔ (grabS polls ⟨c, ps', f'⟩).isSome)
    ∧ (∀ (r : Except PyError Nat) (s' : TState),
        grabS polls ⟨c, ps, f⟩ = some (r, s') →
        s'.abort_acquisition_flag = f)
    ∧ ((∀ p ∈ polls, p = PollResult.null) →
        grabS polls ⟨c, ps, true⟩ = none)
    ∧ ((grabS polls ⟨c, ps, f⟩).map (fun rs => (rs.1, rs.2.camera))
        = grab polls c)
    ∧ ((snapS polls ⟨c, ps, f⟩).map (fun rs => (rs.1, rs.2.camera))
        = snap polls c)
    ∧ (∀ (r : Except PyError Nat) (s' : TState),
        snapS polls ⟨c, ps, f⟩ = some (r, s') →
        s'.abort_acquisition_flag = f)
    ∧ (∀ (n : Nat) (es : List (Bool × List PollResult))
        (images : List Nat),
        pollLoop polls = none →
        grab_multiple (n + 1) ((false, polls) :: es) false images c
          = none) := by
  refine ⟨?_, ?_, ?_, ?_, ?_, ?_, ?_⟩
  · rw [grabS_eq, grabS_eq]
    cases hg : grab polls c with
    | none => simp [hg]
    | some rc => simp [hg]
  · intro r s' h
    rw [grabS_eq] at h
    cases hg : grab polls c with
    | none => rw [hg] at h; simp at h
    | some rc =>
      rw [hg] at h
      simp only [Option.map_some', Option.some.injEq, Prod.mk.injEq] at h
      rw [← h.2]
  · intro hnull
    rw [grabS_eq, grab_eq_map, pollLoop_all_null polls hnull]
    rfl
  · rw [grabS_eq]
    cases hg : grab polls c with
    | none => simp [hg]
    | some rc => simp [hg]
  · rw [snapS_eq]
    cases hg : snap polls c with
    | none => simp [hg]
    | some rc => simp [hg]
  · intro r s' h
    rw [snapS_eq] at h
    cases hg : snap polls c with
    | none => rw [hg] at h; simp at h
    | some rc =>
      rw [hg] at h
      simp only [Option.map_some', Option.some.injEq, Prod.mk.injEq] at h
      rw [← h.2]
  · intro n es images h
    have hg : grab polls c = none := by simp [grab, h]
    simp [grab_multiple, hg]

/-- C10 witness: a set flag does not interrupt an all-null wait, the
flag passes through `grab` and `snap` unchanged, and a hanging attempt
hangs `grab_multiple`. -/
theorem abort_flag_not_polled_in_grab_witness :
    grabS [PollResult.null] ⟨cam0, [], true⟩ = none
    ∧ (⟨{cam0 with sw_triggers := 1}, [], true⟩ : TState).abort_acquisition_flag
        = true
    ∧ (⟨cam0snap, [], true⟩ : TState).abort_acquisition_flag = true
    ∧ grab_multiple 1 [(false, [PollResult.null])] false [] cam0 = none :=
  ⟨(abort_flag_not_polled_in_grab [PollResult.null] cam0 [] [] true
      false).2.2.1 (by decide),
   (abort_flag_not_polled_in_grab [PollResult.frame 4] cam0 [] [] true
      false).2.1 (Except.ok 4) ⟨{cam0 with sw_triggers := 1}, [], true⟩ rfl,
   (abort_flag_not_polled_in_grab [PollResult.frame 4] cam0 [] [] true
      false).2.2.2.2.2.1 (Except.ok 4) ⟨cam0snap, [], true⟩ rfl,
   (abort_flag_not_polled_in_grab [PollResult.null] cam0 [] [] true
      false).2.2.2.2.2.2 0 [] [] rfl⟩

end ThorCam
